import Mathlib

/-!
# Open Notes (`note_app.c`): title sanitizer, note store and UI actions

A shallow embedding of `src/note_app.c`.

Conventions.

* A C string (`const char *`) is the list of its bytes before the terminating
  NUL; bytes are natural numbers `0..255`.  A loop `for (q = s; *q != 0; q++)`
  is structural recursion on that list.
* The raw content of a file is a list of bytes that may contain NUL bytes.
  Where the program terminates a buffer with NUL and hands it to a function
  taking a C string, the string is `cstr buffer`: the bytes before the first
  NUL.
* `isalnum` depends on the locale, which `gtk_init` takes from the environment;
  the locale is a parameter (`Locale`) of everything that sanitizes a title.
  Only what ISO C fixes is built in: the ASCII letters and digits are
  alphanumeric under every locale.
* The notes directory is a list of entries in the order `readdir` yields them.
  An entry is what the program can observe of it: its name, the bytes a read
  delivers, and whether `fopen` for reading, `fopen` for writing and `remove`
  succeed on it (a non-empty subdirectory, for one, cannot be removed).  The
  directory records whether `opendir` succeeds, whether a new entry can be
  created, and whether a file the program creates can be opened again.  A path
  names an entry when it is "notes/" followed by the name of the entry.
* The outcome of `malloc` and `fread` during one `view_note` is a parameter
  (`Libc`).  Writing to a stream that `fopen` has opened on a regular file is
  taken to succeed; what is written to another kind of entry does not stay in
  it.
* GTK widgets are the text they hold: a setter stores the C string it is given,
  a getter returns it.  `g_printerr` appends a diagnostic to a log.
-/

set_option maxRecDepth 100000

namespace OpenNotes

/-! ## Strings -/

/-- `NOTES_DIR`, the bytes of "notes". -/
def NOTES_DIR : List Nat := [110, 111, 116, 101, 115]

/-- The bytes of ".txt". -/
def TXT : List Nat := [46, 116, 120, 116]

/-- The bytes of "untitled", the fallback of `sanitize_title`. -/
def UNTITLED : List Nat := [117, 110, 116, 105, 116, 108, 101, 100]

/-- The C string held by a NUL-terminated buffer: the bytes before the first NUL. -/
def cstr : List Nat → List Nat
  | [] => []
  | c :: rest => if c = 0 then [] else c :: cstr rest

/-- The locale of the process, as far as `isalnum` depends on it: which bytes
it classes as alphanumeric besides the ASCII letters and digits. -/
structure Locale where
  /-- Whether `isalnum` accepts a byte that is no ASCII letter or digit. -/
  alnum_extra : Nat → Bool

/-- The "C" locale, and any UTF-8 locale (where no byte above 127 is a
character of its own): `isalnum` accepts the ASCII letters and digits only. -/
def C_locale : Locale := { alnum_extra := fun _ => false }

/-- A locale of an 8-bit character set: the accented letters of ISO 8859-1
(192-214, 216-246, 248-255) are alphanumeric. -/
def latin_locale : Locale :=
  { alnum_extra := fun c =>
      (192 ≤ c && c ≤ 214) || (216 ≤ c && c ≤ 246) || (248 ≤ c && c ≤ 255) }

/-- ASCII digit `0`..`9`. -/
def ascii_digit (c : Nat) : Bool := 48 ≤ c && c ≤ 57

/-- ASCII letter `A`..`Z` or `a`..`z`. -/
def ascii_letter (c : Nat) : Bool := (65 ≤ c && c ≤ 90) || (97 ≤ c && c ≤ 122)

/-- `isalnum` of `<ctype.h>` under a locale, on a byte of a string (`1..255`):
the ASCII letters and digits in every locale, and the bytes the locale adds. -/
def isalnum (loc : Locale) (c : Nat) : Bool :=
  ascii_letter c || ascii_digit c || (decide (1 ≤ c) && decide (c ≤ 255) && loc.alnum_extra c)

/-- The test of line 48: alphanumeric, space, underscore or hyphen. -/
def title_char_ok (loc : Locale) (c : Nat) : Bool :=
  isalnum loc c || c = 32 || c = 95 || c = 45

/-- The copy loop of `sanitize_title` (lines 46-51). -/
def sanitize_loop (loc : Locale) : List Nat → List Nat
  | [] => []
  | c :: q => if title_char_ok loc c then c :: sanitize_loop loc q else sanitize_loop loc q

/-- `sanitize_title` (lines 36-64). -/
def sanitize_title (loc : Locale) (title : List Nat) : List Nat :=
  if title = [] then UNTITLED
  else
    let sanitized := sanitize_loop loc title
    if sanitized = [] then UNTITLED else sanitized

/-- `strrchr`: the index of the last occurrence of `c` in `s`, if any. -/
def strrchr : List Nat → Nat → Option Nat
  | [], _ => none
  | x :: xs, c =>
    match strrchr xs c with
    | some i => some (i + 1)
    | none => if x = c then some 0 else none

/-- `get_display_name` (lines 24-31): cut the name at its last dot. -/
def get_display_name (filename : List Nat) : List Nat :=
  match strrchr filename 46 with
  | some dot => filename.take dot
  | none => filename

/-- `snprintf(buf, size, ...)`: the formatted text cut to `size - 1` bytes. -/
def snprintf (size : Nat) (text : List Nat) : List Nat := text.take (size - 1)

/-- The path built by `save_note` (line 78): "notes/<title>.txt" in `char path[256]`. -/
def save_path (title : List Nat) : List Nat :=
  snprintf 256 (NOTES_DIR ++ [47] ++ title ++ TXT)

/-- The path built by `view_note` and `delete_note` (lines 95, 141):
"notes/<name>" in `char path[256]`. -/
def entry_path (name : List Nat) : List Nat :=
  snprintf 256 (NOTES_DIR ++ [47] ++ name)

/-- Bytes of an ASCII literal, for readable examples. -/
def ascii (s : String) : List Nat := s.toList.map Char.toNat

/-! ## The notes directory -/

/-- An entry of the notes directory, as the program can observe it. -/
structure File where
  /-- The entry name, as `readdir` reports it in `d_name`. -/
  name : List Nat
  /-- The bytes a complete read delivers; their number is what `ftell` reports. -/
  bytes : List Nat
  /-- Whether `fopen(path, "r")` succeeds on it. -/
  readable : Bool
  /-- Whether `fopen(path, "w")` succeeds on it (not on a read-only file, nor
  on a subdirectory). -/
  writable : Bool
  /-- Whether `remove(path)` succeeds on it (not on a non-empty subdirectory,
  nor where the directory allows no removal). -/
  removable : Bool
  /-- Whether it is a regular file (or a link to one), which holds what is
  written to it; a device, a pipe or a subdirectory is not. -/
  regular : Bool
  deriving DecidableEq, Repr

/-- The notes directory when it exists. -/
structure Dir where
  /-- The entries besides `.` and `..`, in the order `readdir` yields them. -/
  files : List File
  /-- Whether `opendir` succeeds (the directory may be read). -/
  listable : Bool
  /-- Whether `fopen(path, "w")` succeeds for a proper path no entry has yet. -/
  can_create : Bool
  /-- Whether a file the program has created can afterwards be opened for
  reading (its mode is 0666 less the umask). -/
  new_readable : Bool
  /-- Whether a file the program has created can afterwards be opened for
  writing. -/
  new_writable : Bool
  deriving DecidableEq, Repr

/-- Whether a path names an entry: the path is "notes/" followed by the entry
name. -/
def at_path (path : List Nat) (f : File) : Bool :=
  decide (NOTES_DIR ++ [47] ++ f.name = path)

/-- The entry a path names, if any. -/
def fs_lookup (files : List File) (path : List Nat) : Option File :=
  files.find? (at_path path)

/-- Whether a path is one under which an entry can be created: it lies directly
in the notes directory and its last component is a proper file name. -/
def proper_path (path : List Nat) : Bool :=
  let name := path.drop (NOTES_DIR.length + 1)
  decide (path.take (NOTES_DIR.length + 1) = NOTES_DIR ++ [47]) &&
    decide (name ≠ []) && decide (name ≠ [46]) && decide (name ≠ [46, 46]) &&
    !(name.contains 47) && !(name.contains 0) && decide (name.length ≤ 255)

/-- The file `fopen(path, "w")` creates, holding `content` once it is closed:
named by what follows "notes/" in the path, with the permissions the directory
gives to new files. -/
def new_file (dir : Dir) (path content : List Nat) : File :=
  { name := path.drop (NOTES_DIR.length + 1), bytes := content,
    readable := dir.new_readable, writable := dir.new_writable, removable := true,
    regular := true }

/-- Replace the bytes of the first entry a path names. -/
def fs_set_bytes (path : List Nat) (bytes : List Nat) : List File → List File
  | [] => []
  | f :: rest =>
    if at_path path f then { f with bytes := bytes } :: rest
    else f :: fs_set_bytes path bytes rest

/-- The effect of `fopen(path, "w")`, `fputs(content, f)`, `fclose(f)` on an
existing notes directory: `none` when `fopen` fails (the entry exists and cannot
be opened for writing, or it does not exist and cannot be created); otherwise
the file is truncated, or created as the last entry, and holds `content`; an
entry that is no regular file is left as it is. Writing to the open stream is
taken to succeed: the program does not check it. -/
def fs_write (dir : Dir) (path content : List Nat) : Option Dir :=
  match fs_lookup dir.files path with
  | some f =>
    if f.writable then
      some { dir with files := if f.regular then fs_set_bytes path content dir.files
                               else dir.files }
    else none
  | none =>
    if dir.can_create && proper_path path then
      some { dir with files := dir.files ++ [new_file dir path content] }
    else none

/-- The effect of `remove(path)` on an existing notes directory: `none` when it
fails (no entry has that path, or the entry cannot be removed), otherwise the
directory without the entry. -/
def fs_remove (dir : Dir) (path : List Nat) : Option Dir :=
  match fs_lookup dir.files path with
  | some f =>
    if f.removable then some { dir with files := dir.files.filter (fun g => !at_path path g) }
    else none
  | none => none

/-- The entries `opendir` and `readdir` give (lines 162-166): `none` when
`opendir` fails, for want of the directory or of the right to read it. -/
def opendir (store : Option Dir) : Option (List File) :=
  match store with
  | none => none
  | some dir => if dir.listable then some dir.files else none

/-! ## Application state -/

/-- One row of the sidebar: the label and the names given to its two buttons
(lines 175-187). -/
structure Row where
  /-- The text of the label. -/
  label : List Nat
  /-- The widget name of the Open button. -/
  open_name : List Nat
  /-- The widget name of the Delete button. -/
  del_name : List Nat
  deriving DecidableEq, Repr

/-- The diagnostics written with `g_printerr`. -/
inductive Diag where
  /-- "Error saving note file: path" (line 82). -/
  | save_failed (path : List Nat)
  /-- "Error opening note file: path" (line 99). -/
  | open_failed (path : List Nat)
  /-- "Memory allocation failed for note content." (line 110). -/
  | alloc_failed
  /-- "Error reading note content from file: path" (line 115). -/
  | read_failed (path : List Nat)
  /-- "Error deleting file: path" (line 144). -/
  | delete_failed (path : List Nat)
  /-- "Note title cannot be empty." (line 201). -/
  | empty_title
  deriving DecidableEq, Repr

/-- The state the program works on: the notes directory on disk, the five
global widgets and the diagnostic stream. -/
structure App where
  /-- The notes directory, `none` when it does not exist. -/
  store : Option Dir
  /-- The rows of `notes_list`. -/
  notes_list : List Row
  /-- The text of the entry `editor_title`. -/
  editor_title : List Nat
  /-- The text of the buffer of `editor_text`. -/
  editor_text : List Nat
  /-- The text of the label `preview_title`. -/
  preview_title : List Nat
  /-- The text of the label `preview_body`. -/
  preview_body : List Nat
  /-- What has been written to the diagnostic stream, oldest first. -/
  log : List Diag
  deriving DecidableEq, Repr

/-- What the C library does during one `view_note` that the program does not
control. -/
structure Libc where
  /-- Whether `malloc` returns a block. -/
  malloc_ok : Bool
  /-- The most bytes `fread` delivers before it stops (at least the file size
  for a complete read). -/
  fread_max : Nat
  /-- What the part of the block that `fread` leaves unwritten holds (zeros
  where this list ends). -/
  heap : List Nat
  deriving DecidableEq, Repr

/-! ## The operations -/

/-- `save_note` (lines 75-88). -/
def save_note (title content : List Nat) (app : App) : App :=
  let path := save_path title
  match app.store with
  | none => { app with log := app.log ++ [Diag.save_failed path] }
  | some dir =>
    match fs_write dir path content with
    | none => { app with log := app.log ++ [Diag.save_failed path] }
    | some dir1 => { app with store := some dir1 }

/-- The loop body of `refresh_notes_list` over the entries `readdir` yields
(lines 166-191). -/
def refresh_rows : List File → List Row
  | [] => []
  | ent :: rest =>
    if ent.name.head? = some 46 then refresh_rows rest
    else
      { label := get_display_name ent.name, open_name := ent.name, del_name := ent.name }
        :: refresh_rows rest

/-- `refresh_notes_list` (lines 155-195). -/
def refresh_notes_list (app : App) : App :=
  let app1 := { app with notes_list := [] }
  match opendir app1.store with
  | none => app1
  | some entries => { app1 with notes_list := refresh_rows entries }

/-- The buffer of `view_note` after `fread` and `buff[size] = 0` (lines 107-117):
the bytes read, then whatever the block held, then the terminator. -/
def read_buffer (io : Libc) (bytes : List Nat) : List Nat :=
  let size := bytes.length
  let got := min size io.fread_max
  (bytes.take got ++ (io.heap ++ List.replicate size 0).take (size - got)) ++ [0]

/-- `view_note` (lines 91-134); `name_with_ext` is the name of the clicked button. -/
def view_note (io : Libc) (name_with_ext : List Nat) (app : App) : App :=
  let path := entry_path name_with_ext
  match (app.store.bind fun dir => fs_lookup dir.files path) with
  | none => { app with log := app.log ++ [Diag.open_failed path] }
  | some f =>
    if !f.readable then { app with log := app.log ++ [Diag.open_failed path] }
    else
      let size := f.bytes.length
      if !io.malloc_ok then { app with log := app.log ++ [Diag.alloc_failed] }
      else
        let log1 :=
          if min size io.fread_max ≠ size then app.log ++ [Diag.read_failed path]
          else app.log
        let buff := read_buffer io f.bytes
        let display_title := get_display_name name_with_ext
        { app with
          preview_title := display_title
          preview_body := cstr buff
          editor_title := display_title
          editor_text := cstr buff
          log := log1 }

/-- `delete_note` (lines 137-152); `name` is the name of the clicked button. -/
def delete_note (name : List Nat) (app : App) : App :=
  let path := entry_path name
  let app1 : App :=
    match (app.store.bind fun dir => fs_remove dir path) with
    | some dir1 => { app with store := some dir1 }
    | none => { app with log := app.log ++ [Diag.delete_failed path] }
  let app2 := refresh_notes_list app1
  { app2 with preview_title := ascii "Note Deleted", preview_body := [] }

/-- `save_note_action` (lines 198-232), under the locale of the process. -/
def save_note_action (loc : Locale) (app : App) : App :=
  let user_title := app.editor_title
  if user_title.length = 0 then { app with log := app.log ++ [Diag.empty_title] }
  else
    let sanitized_title := sanitize_title loc user_title
    let content := app.editor_text
    let app1 := save_note sanitized_title content app
    let app2 := refresh_notes_list app1
    { app2 with editor_title := sanitized_title }

/-! ## Example states -/

/-- A directory with the given entries in which every call succeeds. -/
def dir_of (files : List File) : Dir :=
  { files := files, listable := true, can_create := true, new_readable := true,
    new_writable := true }

/-- The application right after start-up on an empty notes directory. -/
def app0 : App :=
  { store := some (dir_of []), notes_list := [], editor_title := [], editor_text := [],
    preview_title := ascii "Select a note", preview_body := [], log := [] }

/-- The start-up state on a directory with the given entries. -/
def app_on (files : List File) : App :=
  { app0 with store := some (dir_of files) }

/-- One note "a.txt" with the given bytes. -/
def note_a (bytes : List Nat) : File :=
  { name := ascii "a.txt", bytes := bytes, readable := true, writable := true,
    removable := true, regular := true }

/-- A file named by `n` letters `a`, as a program other than this one can
create it. -/
def note_long (n : Nat) (bytes : List Nat) : File :=
  { name := List.replicate n 97, bytes := bytes, readable := true, writable := true,
    removable := true, regular := true }

/-- A non-empty subdirectory "sub": `remove` fails on it, and so does `fopen`
for writing. -/
def subdir_sub : File :=
  { name := ascii "sub", bytes := [], readable := true, writable := false,
    removable := false, regular := false }

/-- The characters the specification allows in a sanitized title: ASCII
letters, ASCII digits, space, underscore and hyphen. -/
def Allowed (c : Nat) : Prop :=
  (65 ≤ c ∧ c ≤ 90) ∨ (97 ≤ c ∧ c ≤ 122) ∨ (48 ≤ c ∧ c ≤ 57) ∨ c = 32 ∨ c = 95 ∨ c = 45

instance : DecidablePred Allowed := fun c => by
  unfold Allowed
  exact inferInstance

/-- The characters the code keeps under a locale: the allowed ones, and the
bytes that the locale classes as alphanumeric besides them. -/
def Kept (loc : Locale) (c : Nat) : Prop :=
  Allowed c ∨ (1 ≤ c ∧ c ≤ 255 ∧ loc.alnum_extra c = true)

instance (loc : Locale) : DecidablePred (Kept loc) := fun c => by
  unfold Kept
  exact inferInstance

theorem title_char_ok_iff (loc : Locale) (c : Nat) :
    title_char_ok loc c = true ↔ Kept loc c := by
  simp only [title_char_ok, isalnum, ascii_letter, ascii_digit, Kept, Allowed,
    Bool.or_eq_true, Bool.and_eq_true, decide_eq_true_eq]
  tauto

theorem title_char_ok_eq (loc : Locale) (c : Nat) :
    title_char_ok loc c = decide (Kept loc c) := by
  by_cases h : Kept loc c
  · simp [h, (title_char_ok_iff loc c).2 h]
  · have : title_char_ok loc c ≠ true := fun h1 => h ((title_char_ok_iff loc c).1 h1)
    simp [h, this]

theorem sanitize_loop_eq_filter (loc : Locale) (s : List Nat) :
    sanitize_loop loc s = s.filter (fun c => decide (Kept loc c)) := by
  induction s with
  | nil => rfl
  | cons c q ih =>
    by_cases h : Kept loc c
    · simp [sanitize_loop, List.filter_cons, title_char_ok_eq, h, ih]
    · simp [sanitize_loop, List.filter_cons, title_char_ok_eq, h, ih]

/-- The sanitizer is the filter on the kept characters, with the fallback. -/
theorem sanitize_title_eq_filter (loc : Locale) (s : List Nat) :
    sanitize_title loc s =
      (if s.filter (fun c => decide (Kept loc c)) = [] then UNTITLED
       else s.filter (fun c => decide (Kept loc c))) := by
  unfold sanitize_title
  by_cases hs : s = []
  · subst hs; simp
  · simp only [hs, if_false, sanitize_loop_eq_filter]

theorem untitled_allowed : ∀ c ∈ UNTITLED, Allowed c := by decide

theorem sanitize_title_kept (loc : Locale) (s : List Nat) :
    ∀ c ∈ sanitize_title loc s, Kept loc c := by
  intro c hc
  rw [sanitize_title_eq_filter] at hc
  split at hc
  · exact Or.inl (untitled_allowed c hc)
  · simpa using (List.mem_filter.1 hc).2

/-- Where the locale adds no byte, the kept characters are the allowed ones. -/
theorem kept_iff_allowed (loc : Locale) (h : ∀ b, loc.alnum_extra b = false) (c : Nat) :
    Kept loc c ↔ Allowed c := by
  unfold Kept
  constructor
  · rintro (h1 | ⟨_, _, h3⟩)
    · exact h1
    · rw [h c] at h3
      cases h3
  · exact Or.inl

theorem entry_path_eq (name : List Nat) :
    entry_path name = NOTES_DIR ++ [47] ++ name.take 249 := by
  simp [entry_path, snprintf, NOTES_DIR, List.take_succ_cons]

theorem entry_path_short (name : List Nat) (h : name.length ≤ 249) :
    entry_path name = NOTES_DIR ++ [47] ++ name := by
  rw [entry_path_eq, List.take_of_length_le h]

theorem at_path_iff (path : List Nat) (f : File) :
    at_path path f = true ↔ NOTES_DIR ++ [47] ++ f.name = path := by
  simp [at_path]

theorem fs_lookup_mem (files : List File) (path : List Nat) (f : File)
    (h : fs_lookup files path = some f) : f ∈ files ∧ at_path path f = true := by
  unfold fs_lookup at h
  exact ⟨List.mem_of_find?_eq_some h, List.find?_some h⟩

theorem fs_lookup_none_iff (files : List File) (path : List Nat) :
    fs_lookup files path = none ↔ ∀ f ∈ files, at_path path f = false := by
  unfold fs_lookup
  rw [List.find?_eq_none]
  simp

theorem fs_remove_gone (dir dir1 : Dir) (path : List Nat)
    (h : fs_remove dir path = some dir1) : ∀ f ∈ dir1.files, at_path path f = false := by
  unfold fs_remove at h
  cases hl : fs_lookup dir.files path with
  | some g =>
    rw [hl] at h
    by_cases hw : g.removable = true
    · simp only [hw, if_true, Option.some.injEq] at h
      subst h
      intro f hf
      simpa using (List.mem_filter.1 hf).2
    · simp [hw] at h
  | none => simp [hl] at h

/-- Where `remove` succeeds on every entry the path names, it fails only when
the path names none. -/
theorem fs_remove_none (dir : Dir) (path : List Nat)
    (hrm : ∀ f ∈ dir.files, at_path path f = true → f.removable = true)
    (h : fs_remove dir path = none) : ∀ f ∈ dir.files, at_path path f = false := by
  unfold fs_remove at h
  cases hl : fs_lookup dir.files path with
  | some g =>
    have hg := fs_lookup_mem dir.files path g hl
    simp [hl, hrm g hg.1 hg.2] at h
  | none => exact (fs_lookup_none_iff dir.files path).1 hl

theorem fs_remove_absent (dir : Dir) (path : List Nat)
    (h : ∀ f ∈ dir.files, at_path path f = false) : fs_remove dir path = none := by
  unfold fs_remove
  rw [(fs_lookup_none_iff dir.files path).2 h]

theorem opendir_mem (store : Option Dir) (f : File) (h : f ∈ (opendir store).getD []) :
    f ∈ (store.map Dir.files).getD [] := by
  unfold opendir at h
  cases store with
  | none => simp at h
  | some dir =>
    by_cases hl : dir.listable = true
    · simpa [hl] using h
    · simp [hl] at h

/-! ## Lemmas on the list and the actions -/

theorem refresh_rows_eq (files : List File) :
    refresh_rows files =
      (files.filter (fun f => decide (f.name.head? ≠ some 46))).map
        (fun f => { label := get_display_name f.name, open_name := f.name, del_name := f.name }) := by
  induction files with
  | nil => rfl
  | cons f rest ih =>
    by_cases hf : f.name.head? = some 46
    · simp [refresh_rows, List.filter_cons, hf, ih]
    · simp [refresh_rows, List.filter_cons, hf, ih]

theorem refresh_rows_mem (files : List File) (r : Row) :
    r ∈ refresh_rows files ↔
      ∃ f ∈ files, f.name.head? ≠ some 46 ∧
        r = { label := get_display_name f.name, open_name := f.name, del_name := f.name } := by
  rw [refresh_rows_eq]
  simp only [List.mem_map, List.mem_filter, decide_eq_true_eq]
  constructor
  · rintro ⟨f, ⟨hf, hd⟩, rfl⟩
    exact ⟨f, hf, hd, rfl⟩
  · rintro ⟨f, hf, hd, rfl⟩
    exact ⟨f, ⟨hf, hd⟩, rfl⟩

/-- The list is built from the entries `readdir` yields, none when `opendir`
fails. -/
theorem refresh_notes_list_rows (app : App) :
    (refresh_notes_list app).notes_list = refresh_rows ((opendir app.store).getD []) := by
  unfold refresh_notes_list
  cases h : opendir app.store <;> simp [h, refresh_rows]

theorem refresh_notes_list_store (app : App) : (refresh_notes_list app).store = app.store := by
  unfold refresh_notes_list
  cases h : opendir app.store <;> simp [h]

/-- What `view_note` does when `fopen` or `malloc` fails: it logs and returns,
and every widget is as before. -/
theorem view_note_not_opened (io : Libc) (name : List Nat) (app : App)
    (h : (∀ dir f, app.store = some dir → fs_lookup dir.files (entry_path name) = some f →
        f.readable = false) ∨ io.malloc_ok = false) :
    view_note io name app = { app with log := app.log ++ [Diag.open_failed (entry_path name)] } ∨
      view_note io name app = { app with log := app.log ++ [Diag.alloc_failed] } := by
  unfold view_note
  cases hs : app.store with
  | none => left; simp
  | some dir =>
    cases hl : fs_lookup dir.files (entry_path name) with
    | none => left; simp [hl]
    | some f =>
      by_cases hr : f.readable = true
      · rcases h with h | h
        · rw [h dir f hs hl] at hr
          cases hr
        · right; simp [hl, hr, h]
      · left; simp [hl, hr]

theorem delete_note_rows (name : List Nat) (app : App) :
    (delete_note name app).notes_list =
      refresh_rows ((opendir (delete_note name app).store).getD []) := by
  unfold delete_note
  simp only [refresh_notes_list_store, refresh_notes_list_rows]

/-- After `delete_note`, where `remove` succeeds on every entry the path
names, no entry of the store is at that path. -/
theorem delete_note_store_gone (name : List Nat) (app : App)
    (hrm : ∀ dir, app.store = some dir →
      ∀ f ∈ dir.files, at_path (entry_path name) f = true → f.removable = true) :
    ∀ f ∈ ((delete_note name app).store.map Dir.files).getD [],
      at_path (entry_path name) f = false := by
  unfold delete_note
  simp only [refresh_notes_list_store]
  cases hs : app.store with
  | none => simp
  | some dir =>
    cases hr : fs_remove dir (entry_path name) with
    | none =>
      simpa [hs, hr] using fs_remove_none dir _ (hrm dir hs) hr
    | some dir1 =>
      simpa [hs, hr] using fs_remove_gone dir dir1 _ hr

/-- What `delete_note` does when `remove` fails. -/
theorem delete_note_failed (name : List Nat) (app : App)
    (h : ∀ dir, app.store = some dir → fs_remove dir (entry_path name) = none) :
    delete_note name app =
      { app with
        notes_list := refresh_rows ((opendir app.store).getD [])
        preview_title := ascii "Note Deleted"
        preview_body := []
        log := app.log ++ [Diag.delete_failed (entry_path name)] } := by
  unfold delete_note
  have hb : (app.store.bind fun dir => fs_remove dir (entry_path name)) = none := by
    cases hs : app.store with
    | none => rfl
    | some dir => simpa using h dir hs
  simp only [hb]
  unfold refresh_notes_list
  cases ho : opendir app.store <;> simp [ho, refresh_rows]

/-! ## The sanitizer (C1, C2, C10) -/

/-- C1, as the claim states it, fails: under a locale of an 8-bit character set
the title "caf" followed by the bytes 195 and 169 is sanitized to "caf" followed
by 195, and 195 is none of the characters the claim lists. -/
theorem charset_fails_in_8bit_locale :
    sanitize_title latin_locale [99, 97, 102, 195, 169] = [99, 97, 102, 195] ∧
      195 ∈ sanitize_title latin_locale [99, 97, 102, 195, 169] ∧
      ¬ ((65 ≤ 195 ∧ 195 ≤ 90) ∨ (97 ≤ 195 ∧ 195 ≤ 122) ∨ (48 ≤ 195 ∧ 195 ≤ 57) ∨
          195 = 32 ∨ 195 = 95 ∨ 195 = 45) := by
  decide

/-- C1, amended: under every locale and for every input `s`, the empty string
included, every character of `sanitize_title s` is an ASCII letter, an ASCII
digit, a space, an underscore or a hyphen, or a byte that `isalnum` accepts
under the locale besides the ASCII letters and digits; so where the locale adds
no such byte (the "C" locale, UTF-8 locales) every character is one the claim
lists. -/
theorem sanitize_title_charset (loc : Locale) (s : List Nat) (c : Nat)
    (hc : c ∈ sanitize_title loc s) :
    (((65 ≤ c ∧ c ≤ 90) ∨ (97 ≤ c ∧ c ≤ 122) ∨ (48 ≤ c ∧ c ≤ 57) ∨ c = 32 ∨ c = 95 ∨
        c = 45) ∨ (1 ≤ c ∧ c ≤ 255 ∧ loc.alnum_extra c = true)) ∧
    ((∀ b, loc.alnum_extra b = false) →
      (65 ≤ c ∧ c ≤ 90) ∨ (97 ≤ c ∧ c ≤ 122) ∨ (48 ≤ c ∧ c ≤ 57) ∨ c = 32 ∨ c = 95 ∨
        c = 45) :=
  ⟨sanitize_title_kept loc s c hc,
    fun h => (kept_iff_allowed loc h c).1 (sanitize_title_kept loc s c hc)⟩

/-- Witness of C1 (amended) on "a!b" in the "C" locale: the character `b` of
the result "ab" is a letter. -/
theorem sanitize_title_charset_witness :
    98 ∈ sanitize_title C_locale (ascii "a!b") ∧
      ((65 ≤ 98 ∧ 98 ≤ 90) ∨ (97 ≤ 98 ∧ 98 ≤ 122) ∨ (48 ≤ 98 ∧ 98 ≤ 57) ∨
        98 = 32 ∨ 98 = 95 ∨ 98 = 45) :=
  ⟨by decide,
    (sanitize_title_charset C_locale (ascii "a!b") 98 (by decide)).2 (fun _ => rfl)⟩

/-- C7: with an empty editor title `save_note_action` only logs: the store, the
list, the editor and the preview are as before. -/
theorem save_note_action_empty_title (loc : Locale) (app : App)
    (h : app.editor_title = []) :
    save_note_action loc app = { app with log := app.log ++ [Diag.empty_title] } := by
  simp [save_note_action, h]

/-- Witness of C7 on the start-up state. -/
theorem save_note_action_empty_title_witness :
    app0.editor_title = [] ∧
      save_note_action C_locale app0 = { app0 with log := app0.log ++ [Diag.empty_title] } :=
  ⟨rfl, save_note_action_empty_title C_locale app0 rfl⟩

/-! ## Save, list, open (C3) -/

/-- C5, as the claim states it, fails in two ways. A file whose name is 250
letters `a` is still listed after `delete_note` is called with that name,
because the path is cut at 255 bytes and names no entry. And a non-empty
subdirectory "sub", which the list shows like any entry, is still listed after
`delete_note`, because `remove` fails on it. -/
theorem delete_still_listed :
    ((∃ r ∈ (delete_note (List.replicate 250 97) (app_on [note_long 250 []])).notes_list,
        r.del_name = List.replicate 250 97) ∧
      (delete_note (List.replicate 250 97) (app_on [note_long 250 []])).store =
        (app_on [note_long 250 []]).store) ∧
    ((∃ r ∈ (refresh_notes_list (app_on [subdir_sub])).notes_list,
        r.del_name = ascii "sub") ∧
      (∃ r ∈ (delete_note (ascii "sub") (app_on [subdir_sub])).notes_list,
        r.del_name = ascii "sub") ∧
      (delete_note (ascii "sub") (app_on [subdir_sub])).log =
        [Diag.delete_failed (ascii "notes/sub")]) := by
  decide

/-- C5, amended: for a filename that is an entry name (not empty, no slash) of
at most 249 bytes: after `delete_note`, where `remove` succeeds on every entry
of that name, no row of the list is bound to the filename; and when the store
has no entry of that name, `delete_note` leaves the store and the editor as they
were and logs one message (the list is rebuilt and the preview reset as after
any delete). The two conditions on the shape of the name keep the statement to
the names the list hands out, for which a path names an entry by its name
alone. -/
theorem delete_note_unlists (app : App) (name : List Nat)
    (_hne : name ≠ []) (_hslash : 47 ∉ name) (hlen : name.length ≤ 249) :
    ((∀ dir, app.store = some dir → ∀ f ∈ dir.files, f.name = name → f.removable = true) →
      ∀ r ∈ (delete_note name app).notes_list, r.open_name ≠ name ∧ r.del_name ≠ name) ∧
    ((∀ dir, app.store = some dir → ∀ f ∈ dir.files, f.name ≠ name) →
      delete_note name app =
        { app with
          notes_list := refresh_rows ((opendir app.store).getD [])
          preview_title := ascii "Note Deleted"
          preview_body := []
          log := app.log ++ [Diag.delete_failed (NOTES_DIR ++ [47] ++ name)] }) := by
  have hpath := entry_path_short name hlen
  have hat : ∀ f : File, at_path (entry_path name) f = true ↔ f.name = name := by
    intro f
    rw [at_path_iff, hpath]
    exact ⟨fun h => List.append_cancel_left h, fun h => by rw [h]⟩
  constructor
  · intro hrm r hr
    rw [delete_note_rows] at hr
    obtain ⟨f, hf, _, rfl⟩ := (refresh_rows_mem _ r).1 hr
    have hgone := delete_note_store_gone name app
      (fun dir hs f hf hfp => hrm dir hs f hf ((hat f).1 hfp)) f (opendir_mem _ f hf)
    have hfn : f.name ≠ name := by
      intro e
      rw [(hat f).2 e] at hgone
      cases hgone
    exact ⟨hfn, hfn⟩
  · intro habsent
    rw [← hpath]
    apply delete_note_failed
    intro dir hs
    apply fs_remove_absent
    intro f hf
    by_contra hcon
    exact habsent dir hs f hf ((hat f).1 (by simpa using hcon))

/-- Witness of C5 (amended): deleting "a.txt" from a directory that holds only
that note, and from the empty directory. -/
theorem delete_note_unlists_witness :
    ((∀ r ∈ (delete_note (ascii "a.txt") (app_on [note_a (ascii "hello")])).notes_list,
        r.open_name ≠ ascii "a.txt" ∧ r.del_name ≠ ascii "a.txt") ∧
      (delete_note (ascii "a.txt") (app_on [note_a (ascii "hello")])).store =
        some (dir_of [])) ∧
    delete_note (ascii "a.txt") app0 =
      { app0 with
        notes_list := refresh_rows ((opendir app0.store).getD [])
        preview_title := ascii "Note Deleted"
        preview_body := []
        log := app0.log ++ [Diag.delete_failed (NOTES_DIR ++ [47] ++ ascii "a.txt")] } :=
  ⟨⟨(delete_note_unlists (app_on [note_a (ascii "hello")]) (ascii "a.txt") (by decide)
      (by decide) (by decide)).1
      (fun dir hs f hf _ => by
        have h0 : (app_on [note_a (ascii "hello")]).store =
            some (dir_of [note_a (ascii "hello")]) := rfl
        rw [h0] at hs
        rw [← Option.some.inj hs] at hf
        simp only [dir_of, List.mem_singleton] at hf
        rw [hf]
        rfl), by decide⟩,
    (delete_note_unlists app0 (ascii "a.txt") (by decide) (by decide) (by decide)).2
      (fun dir hs f hf => by
        have h0 : app0.store = some (dir_of []) := rfl
        rw [h0] at hs
        rw [← Option.some.inj hs] at hf
        cases hf)⟩

/-! ## Opening (C8, C9) -/

/-- C8, evaluated where it fails: "a.txt" holds "hello" and `fread` delivers 2
of its 5 bytes. `view_note` logs the read error and goes on: both titles become
"a" and both bodies "he" (the block held zeros), although the read failed. -/
theorem view_note_short_read_overwrites :
    view_note ⟨true, 2, []⟩ (ascii "a.txt") (app_on [note_a (ascii "hello")]) =
      { app_on [note_a (ascii "hello")] with
        preview_title := ascii "a"
        preview_body := ascii "he"
        editor_title := ascii "a"
        editor_text := ascii "he"
        log := [Diag.read_failed (ascii "notes/a.txt")] } := by
  decide

end OpenNotes
